import Mathlib

/-!
Shallow embedding of the GamePlay UI `Control` base class, from
`src/gameplay/src/Control.h`.  The header fixes the data model: the
`State` enum and its bit values, the `Listener::EventType` enum and its
bit values, the `ANIMATE_*` animation property identifiers, the themed
style records referenced by the accessors, and the operation signatures.
The method bodies are not among the sources, so every operation body is
modelled from the specification (sections 4.B to 4.G, 6, 7 of the spec);
each such definition carries a doc comment starting with
`Modelled from the spec:`.  Scalar quantities that the program stores as
`float` are modelled as rationals, so blending laws hold exactly.
-/

namespace Gameplay

/-- The possible states a control can be in (`Control::State`,
Control.h lines 31-53). -/
inductive State where
  | NORMAL
  | FOCUS
  | ACTIVE
  | DISABLED
deriving DecidableEq, Fintype

/-- The bit value the source assigns to each state constant:
`NORMAL = 0x01`, `FOCUS = 0x02`, `ACTIVE = 0x04`, `DISABLED = 0x08`. -/
def State.value : State → Nat
  | .NORMAL => 0x01
  | .FOCUS => 0x02
  | .ACTIVE => 0x04
  | .DISABLED => 0x08

/-- Constant for setting themed attributes on all states at once
(Control.h line 58): the bitwise OR of the four state constants. -/
def STATE_ALL : Nat :=
  State.NORMAL.value ||| State.FOCUS.value ||| State.ACTIVE.value ||| State.DISABLED.value

/-- A state mask, as a `Nat`, denotes the set of states whose bit is set.
`maskOfSet f` builds the mask denoting the subset `f` of the four states. -/
def maskOfSet (f : State → Bool) : Nat :=
  (if f .NORMAL then State.NORMAL.value else 0) |||
  (if f .FOCUS then State.FOCUS.value else 0) |||
  (if f .ACTIVE then State.ACTIVE.value else 0) |||
  (if f .DISABLED then State.DISABLED.value else 0)

/-- Event types a control can emit to its listeners
(`Control::Listener::EventType`, Control.h lines 63-91). -/
inductive EventType where
  | PRESS
  | RELEASE
  | CLICK
  | VALUE_CHANGED
  | TEXT_CHANGED
deriving DecidableEq, Fintype

/-- The bit value the source assigns to each event type:
`PRESS = 0x01`, `RELEASE = 0x02`, `CLICK = 0x04`, `VALUE_CHANGED = 0x08`,
`TEXT_CHANGED = 0x10`. -/
def EventType.value : EventType → Nat
  | .PRESS => 0x01
  | .RELEASE => 0x02
  | .CLICK => 0x04
  | .VALUE_CHANGED => 0x08
  | .TEXT_CHANGED => 0x10

/-- Animation property identifiers (Control.h lines 105-135). -/
def ANIMATE_POSITION : Int := 1

def ANIMATE_POSITION_X : Int := 2

def ANIMATE_POSITION_Y : Int := 3

def ANIMATE_SIZE : Int := 4

def ANIMATE_SIZE_WIDTH : Int := 5

def ANIMATE_SIZE_HEIGHT : Int := 6

def ANIMATE_OPACITY : Int := 7

/-- The error taxonomy of spec section 7. -/
inductive ControlError where
  | UnknownImage
  | UnknownProperty
  | BadState
  | InvalidMask
  | NullStyle
deriving DecidableEq

/-- A rectangle given by position and size, as in `Rectangle.h`
(x, y, width, height); coordinates are modelled as rationals. -/
structure Rectangle where
  x : ℚ
  y : ℚ
  width : ℚ
  height : ℚ
deriving DecidableEq

/-- A four-component vector (`Vector4.h`), used for blend and text colors. -/
structure Vector4 where
  x : ℚ
  y : ℚ
  z : ℚ
  w : ℚ
deriving DecidableEq

/-- Four side thicknesses, the shape shared by `Theme::Border`,
`Theme::Margin` and `Theme::Padding` (spec section 3). -/
structure SideRegions where
  top : ℚ
  bottom : ℚ
  left : ℚ
  right : ℚ
deriving DecidableEq

/-- A themed image: a texture region and a blend color, keyed by a string
id inside an overlay's image set (spec section 3). -/
structure ThemeImage where
  region : Rectangle
  color : Vector4
deriving DecidableEq

/-- Per-state visual attributes of a control (`Theme::Style::Overlay`,
spec section 3).  Font and text alignment are external handles, modelled
as numeric identifiers; the image set is an association list from id. -/
structure Overlay where
  skinRegion : Rectangle
  skinColor : Vector4
  border : SideRegions
  cursorRegion : Rectangle
  cursorColor : Vector4
  font : Nat
  fontSize : Nat
  textColor : Vector4
  textAlignment : Nat
  textRightToLeft : Bool
  opacity : ℚ
  imageSet : List (String × ThemeImage)
deriving DecidableEq

/-- A style: exactly four overlays keyed by state, plus a state-independent
margin and padding (`Theme::Style`, spec section 3). -/
structure Style where
  overlayNormal : Overlay
  overlayFocus : Overlay
  overlayActive : Overlay
  overlayDisabled : Overlay
  margin : SideRegions
  padding : SideRegions
deriving DecidableEq

/-- The overlay a style assigns to a given state (spec: the mapping
state to overlay is the identity given by the Style). -/
def Style.getOverlay (st : Style) : State → Overlay
  | .NORMAL => st.overlayNormal
  | .FOCUS => st.overlayFocus
  | .ACTIVE => st.overlayActive
  | .DISABLED => st.overlayDisabled

/-- Modelled from the spec: a masked per-state write
(`setA(v, mask)` body, spec section 4.D).  Applies the overlay update `f`
to every overlay whose state bit is in `mask` and only those. -/
def Style.applyMasked (st : Style) (f : Overlay → Overlay) (mask : Nat) : Style :=
  { st with
    overlayNormal :=
      if State.NORMAL.value &&& mask ≠ 0 then f st.overlayNormal else st.overlayNormal
    overlayFocus :=
      if State.FOCUS.value &&& mask ≠ 0 then f st.overlayFocus else st.overlayFocus
    overlayActive :=
      if State.ACTIVE.value &&& mask ≠ 0 then f st.overlayActive else st.overlayActive
    overlayDisabled :=
      if State.DISABLED.value &&& mask ≠ 0 then f st.overlayDisabled else st.overlayDisabled }

/-- Styles are shared among controls by reference; the store holds the
style objects and controls refer to them by index (spec section 3:
`style`: reference to a Style, possibly shared, possibly owned). -/
abbrev StyleStore := List Style

/-- The `Control` data (Control.h lines 707-726).  The style is held by
reference into a `StyleStore`; `listeners` is modelled separately. -/
structure Control where
  id : String
  state : State
  bounds : Rectangle
  clipBounds : Rectangle
  textBounds : Rectangle
  clip : Rectangle
  dirty : Bool
  consumeTouchEvents : Bool
  styleRef : Nat
  styleOverridden : Bool
deriving DecidableEq

/-- Modelled from the spec: `Control::overrideStyle` (section 4.B; its
body is not among the sources).  When the control does not yet own its
style, replace the shared reference with a fresh private deep copy of
the referenced style and set `styleOverridden`; with no style assigned
the operation reports `NullStyle` and changes nothing. -/
def overrideStyle (store : StyleStore) (c : Control) : StyleStore × Control :=
  if c.styleOverridden then (store, c)
  else
    match store[c.styleRef]? with
    | some st =>
        (store ++ [st], { c with styleRef := store.length, styleOverridden := true })
    | none => (store, c)

/-- Modelled from the spec: the common body of every themed-property
setter (section 4.D): first override the style when necessary
(copy-on-first-write, section 4.B), then apply the masked write to the
owned style, and mark the control dirty. -/
def setThemedProperty (store : StyleStore) (c : Control) (f : Overlay → Overlay)
    (mask : Nat) : StyleStore × Control :=
  let p := overrideStyle store c
  match p.1[p.2.styleRef]? with
  | some st =>
      (p.1.set p.2.styleRef (st.applyMasked f mask), { p.2 with dirty := true })
  | none => (p.1, p.2)

/-- Modelled from the spec: `Control::setTextColor(color, states)`
(Control.h line 439; body per spec section 4.D). -/
def Control.setTextColor (store : StyleStore) (c : Control) (color : Vector4)
    (states : Nat) : StyleStore × Control :=
  setThemedProperty store c (fun ov => { ov with textColor := color }) states

/-- Modelled from the spec: `Control::getTextColor(state)` (Control.h
line 448; body per spec section 4.D: the getter returns the value of the
overlay selected by `state`).  `none` is the `NullStyle` error case. -/
def Control.getTextColor (store : StyleStore) (c : Control) (state : State) :
    Option Vector4 :=
  (store[c.styleRef]?).map (fun st => (st.getOverlay state).textColor)

/-- Endpoint containment of rectangles: `inner` lies within `outer`
when each of its sides is between the corresponding sides of `outer`. -/
def Rectangle.containsRect (outer inner : Rectangle) : Prop :=
  outer.x ≤ inner.x ∧ inner.x + inner.width ≤ outer.x + outer.width ∧
  outer.y ≤ inner.y ∧ inner.y + inner.height ≤ outer.y + outer.height

/-- Modelled from the spec: rectangle intersection (`Rectangle::intersect`,
whose body is not among the sources), read as interval intersection on
each axis: the left/top edges are the maxima, the right/bottom edges the
minima, of the two rectangles' edges. -/
def Rectangle.intersect (r1 r2 : Rectangle) : Rectangle :=
  { x := max r1.x r2.x
    y := max r1.y r2.y
    width := min (r1.x + r1.width) (r2.x + r2.width) - max r1.x r2.x
    height := min (r1.y + r1.height) (r2.y + r2.height) - max r1.y r2.y }

/-- Whether a touch point with integer screen coordinates lies inside a
rectangle (closed on all sides). -/
def Rectangle.containsPoint (r : Rectangle) (x y : Int) : Bool :=
  decide (r.x ≤ (x : ℚ) ∧ (x : ℚ) ≤ r.x + r.width ∧
          r.y ≤ (y : ℚ) ∧ (y : ℚ) ≤ r.y + r.height)

/-- Shrink a rectangle by a border and a padding on every side, the
inset the spec prescribes for the text area (section 4.G). -/
def insetRect (r : Rectangle) (b p : SideRegions) : Rectangle :=
  { x := r.x + b.left + p.left
    y := r.y + b.top + p.top
    width := r.width - (b.left + b.right + p.left + p.right)
    height := r.height - (b.top + b.bottom + p.top + p.bottom) }

/-- Modelled from the spec: `Control::update(clip)` (Control.h line 653;
body per spec section 4.G).  Re-derives `clipBounds` as the intersection
of `bounds` with the parent clip, `textBounds` as `bounds` inset by the
current state's overlay border plus the style's padding, `clip` as the
content rectangle of `clipBounds` under the same inset, and clears the
dirty flag.  With no style assigned (`NullStyle`) nothing changes. -/
def Control.update (store : StyleStore) (c : Control) (parentClip : Rectangle) : Control :=
  match store[c.styleRef]? with
  | none => c
  | some st =>
      let ov := st.getOverlay c.state
      { c with
        clipBounds := c.bounds.intersect parentClip
        textBounds := insetRect c.bounds ov.border st.padding
        clip := insetRect (c.bounds.intersect parentClip) ov.border st.padding
        dirty := false }

/-- Modelled from the spec: `Control::isEnabled` (Control.h line 552):
a control is enabled exactly when its state is not `DISABLED`. -/
def Control.isEnabled (c : Control) : Bool :=
  decide (c.state ≠ State.DISABLED)

/-- Modelled from the spec: `Control::disable` (Control.h line 540;
transition table section 4.C: any non-Disabled state moves to Disabled). -/
def Control.disable (c : Control) : Control :=
  { c with state := State.DISABLED }

/-- Modelled from the spec: `Control::enable` (Control.h line 545;
transition table section 4.C: Disabled moves to Normal; no other
transition is listed for `enable`). -/
def Control.enable (c : Control) : Control :=
  if c.state = State.DISABLED then { c with state := State.NORMAL } else c

/-- An action delivered to a control: a touch event (`Control::touchEvent`,
Control.h line 633), a key event (`Control::keyEvent`, line 645), or one
of the `disable`/`enable` calls, which the spec's state machine treats
as part of the input sequence (section 4.C). -/
inductive InputAction where
  | touchPress (x y : Int)
  | touchRelease (x y : Int)
  | touchMove (x y : Int)
  | keyEvent (evt : Int) (key : Int)
  | disableCall
  | enableCall
deriving DecidableEq

/-- An action is a plain touch or key input (not an `enable`/`disable`
API call). -/
def InputAction.isInput : InputAction → Bool
  | .touchPress _ _ => true
  | .touchRelease _ _ => true
  | .touchMove _ _ => true
  | .keyEvent _ _ => true
  | .disableCall => false
  | .enableCall => false

/-- Modelled from the spec: one step of the control state machine
(sections 4.C and 4.E; the bodies of `touchEvent`, `keyEvent`, `disable`
and `enable` are not among the sources).  Given the control's bounds and
current state, an action yields the next state and the list of events
emitted to listeners:
a press inside bounds on a non-disabled control moves to Active and
emits PRESS; a release while Active emits RELEASE and, when the release
point is inside bounds, also CLICK and moves to Focus, otherwise moves
to Normal; Disabled swallows all input; `disable()` moves to Disabled
emitting nothing; `enable()` moves Disabled to Normal; moves and key
events drive no base-class transition. -/
def controlStep (b : Rectangle) (s : State) : InputAction → State × List EventType
  | .touchPress x y =>
      if s = State.DISABLED then (s, [])
      else if b.containsPoint x y then (State.ACTIVE, [EventType.PRESS])
      else (s, [])
  | .touchRelease x y =>
      if s = State.DISABLED then (s, [])
      else if s = State.ACTIVE then
        if b.containsPoint x y then (State.FOCUS, [EventType.RELEASE, EventType.CLICK])
        else (State.NORMAL, [EventType.RELEASE])
      else (s, [])
  | .touchMove _ _ => (s, [])
  | .keyEvent _ _ => (s, [])
  | .disableCall => (State.DISABLED, [])
  | .enableCall => if s = State.DISABLED then (State.NORMAL, []) else (s, [])

/-- The state after delivering a whole action sequence. -/
def controlRunState (b : Rectangle) (s : State) : List InputAction → State
  | [] => s
  | a :: rest => controlRunState b (controlStep b s a).1 rest

/-- All events emitted while delivering a whole action sequence,
in order. -/
def controlRunEvents (b : Rectangle) (s : State) : List InputAction → List EventType
  | [] => []
  | a :: rest => (controlStep b s a).2 ++ controlRunEvents b (controlStep b s a).1 rest

/-- Actions that cannot leave the Active state: everything except a
release (which always exits Active) and a `disable()` call. -/
def keepsActive : InputAction → Bool
  | .touchRelease _ _ => false
  | .disableCall => false
  | _ => true

/-- The listener registry (`_listeners`, Control.h line 716): for each
event type, the ordered list of listeners registered under it.
Listeners are external objects, modelled by numeric handles. -/
abbrev ListenerMap := EventType → List Nat

/-- Modelled from the spec: `Control::addListener(listener, eventFlags)`
(Control.h line 593; body per spec section 4.E): registers the listener
under every event type whose bit appears in `eventFlags`, preserving
registration order. -/
def addListener (m : ListenerMap) (listener : Nat) (eventFlags : Nat) : ListenerMap :=
  fun t => if t.value &&& eventFlags ≠ 0 then m t ++ [listener] else m t

/-- Modelled from the spec: `Control::notifyListeners(eventType)`
(Control.h line 703; body per spec section 4.E): delivers to all
listeners registered under exactly that event type, in registration
order.  The result is the delivery list. -/
def notifyListeners (m : ListenerMap) (eventType : EventType) : List Nat :=
  m eventType

/-- Modelled from the spec: state-name parsing
(`Control::getStateFromString`, Control.h line 698; body per spec
section 6 and scenario S6): exactly the four uppercase names parse;
every other string fails with `BadState`. -/
def getStateFromString (state : String) : Except ControlError State :=
  if state = "NORMAL" then .ok State.NORMAL
  else if state = "FOCUS" then .ok State.FOCUS
  else if state = "ACTIVE" then .ok State.ACTIVE
  else if state = "DISABLED" then .ok State.DISABLED
  else .error ControlError.BadState

/-- Blend of a current and an incoming scalar under a blend weight
(spec section 4.F). -/
def blendScalar (current incoming w : ℚ) : ℚ :=
  current * (1 - w) + incoming * w

/-- Modelled from the spec:
`Control::getAnimationPropertyComponentCount` (Control.h line 598; body
per spec section 4.F): Position and Size have two components, the five
scalar properties one; an unknown id fails with `UnknownProperty`. -/
def getAnimationPropertyComponentCount (propertyId : Int) : Except ControlError Nat :=
  if propertyId = ANIMATE_POSITION then .ok 2
  else if propertyId = ANIMATE_POSITION_X then .ok 1
  else if propertyId = ANIMATE_POSITION_Y then .ok 1
  else if propertyId = ANIMATE_SIZE then .ok 2
  else if propertyId = ANIMATE_SIZE_WIDTH then .ok 1
  else if propertyId = ANIMATE_SIZE_HEIGHT then .ok 1
  else if propertyId = ANIMATE_OPACITY then .ok 1
  else .error ControlError.UnknownProperty

/-- Modelled from the spec: `Control::getAnimationPropertyValue`
(Control.h line 603; body per spec section 4.F): reads from the current
bounds, or from the current state's overlay opacity; `none` covers the
unknown-property and missing-style error cases. -/
def Control.getAnimationPropertyValue (store : StyleStore) (c : Control)
    (propertyId : Int) : Option (List ℚ) :=
  if propertyId = ANIMATE_POSITION then some [c.bounds.x, c.bounds.y]
  else if propertyId = ANIMATE_POSITION_X then some [c.bounds.x]
  else if propertyId = ANIMATE_POSITION_Y then some [c.bounds.y]
  else if propertyId = ANIMATE_SIZE then some [c.bounds.width, c.bounds.height]
  else if propertyId = ANIMATE_SIZE_WIDTH then some [c.bounds.width]
  else if propertyId = ANIMATE_SIZE_HEIGHT then some [c.bounds.height]
  else if propertyId = ANIMATE_OPACITY then
    (store[c.styleRef]?).map (fun st => [(st.getOverlay c.state).opacity])
  else none

/-- Modelled from the spec: `Control::setAnimationPropertyValue`
(Control.h line 608; body per spec section 4.F): each targeted scalar is
replaced by `current * (1 - w) + incoming * w`; multi-component
properties decompose into their scalar setters; an opacity write blends
against the current state's opacity and affects all state overlays
uniformly (through the themed setter with mask `STATE_ALL`); every
scalar write marks the control dirty.  Unknown ids (`UnknownProperty`)
and a missing style (`NullStyle`) change nothing. -/
def Control.setAnimationPropertyValue (store : StyleStore) (c : Control)
    (propertyId : Int) (value : List ℚ) (blendWeight : ℚ) : StyleStore × Control :=
  if propertyId = ANIMATE_POSITION then
    (store, { c with
      bounds := { c.bounds with
        x := blendScalar c.bounds.x (value.getD 0 0) blendWeight
        y := blendScalar c.bounds.y (value.getD 1 0) blendWeight }
      dirty := true })
  else if propertyId = ANIMATE_POSITION_X then
    (store, { c with
      bounds := { c.bounds with x := blendScalar c.bounds.x (value.getD 0 0) blendWeight }
      dirty := true })
  else if propertyId = ANIMATE_POSITION_Y then
    (store, { c with
      bounds := { c.bounds with y := blendScalar c.bounds.y (value.getD 0 0) blendWeight }
      dirty := true })
  else if propertyId = ANIMATE_SIZE then
    (store, { c with
      bounds := { c.bounds with
        width := blendScalar c.bounds.width (value.getD 0 0) blendWeight
        height := blendScalar c.bounds.height (value.getD 1 0) blendWeight }
      dirty := true })
  else if propertyId = ANIMATE_SIZE_WIDTH then
    (store, { c with
      bounds := { c.bounds with width := blendScalar c.bounds.width (value.getD 0 0) blendWeight }
      dirty := true })
  else if propertyId = ANIMATE_SIZE_HEIGHT then
    (store, { c with
      bounds := { c.bounds with height := blendScalar c.bounds.height (value.getD 0 0) blendWeight }
      dirty := true })
  else if propertyId = ANIMATE_OPACITY then
    match store[c.styleRef]? with
    | some st =>
        let nv := blendScalar (st.getOverlay c.state).opacity (value.getD 0 0) blendWeight
        setThemedProperty store c (fun ov => { ov with opacity := nv }) STATE_ALL
    | none => (store, c)
  else (store, c)

/-- A neutral overlay value, used to build concrete styles in the closed
instances below. -/
def sampleOverlay : Overlay :=
  { skinRegion := ⟨0, 0, 0, 0⟩
    skinColor := ⟨0, 0, 0, 0⟩
    border := ⟨2, 2, 2, 2⟩
    cursorRegion := ⟨0, 0, 0, 0⟩
    cursorColor := ⟨0, 0, 0, 0⟩
    font := 0
    fontSize := 12
    textColor := ⟨1, 1, 1, 1⟩
    textAlignment := 0
    textRightToLeft := false
    opacity := 1
    imageSet := [] }

/-- A concrete style whose four overlays are all `sampleOverlay`. -/
def sampleStyle : Style :=
  { overlayNormal := sampleOverlay
    overlayFocus := sampleOverlay
    overlayActive := sampleOverlay
    overlayDisabled := sampleOverlay
    margin := ⟨0, 0, 0, 0⟩
    padding := ⟨3, 3, 3, 3⟩ }

/-- A concrete control sharing style slot 0, not yet overridden. -/
def sampleControl : Control :=
  { id := "c1"
    state := State.NORMAL
    bounds := ⟨10, 10, 100, 40⟩
    clipBounds := ⟨0, 0, 0, 0⟩
    textBounds := ⟨0, 0, 0, 0⟩
    clip := ⟨0, 0, 0, 0⟩
    dirty := true
    consumeTouchEvents := true
    styleRef := 0
    styleOverridden := false }

/-- A second concrete control sharing the same style slot 0. -/
def sampleControl2 : Control :=
  { sampleControl with id := "c2" }

/-- Projection of `Style.applyMasked` through `Style.getOverlay`: the
overlay of state `s` is rewritten exactly when the bit of `s` is in the
mask. -/
theorem getOverlay_applyMasked (st : Style) (f : Overlay → Overlay) (mask : Nat)
    (s : State) :
    (st.applyMasked f mask).getOverlay s =
      if s.value &&& mask ≠ 0 then f (st.getOverlay s) else st.getOverlay s := by
  cases s <;> rfl

/-- Behaviour of the common themed-setter body on a valid style
reference: the written style is the masked rewrite of the prior style in
a slot the updated control owns exclusively, the control is dirty and
marked overridden, its state is unchanged, and every other slot of the
store is untouched. -/
theorem setThemedProperty_spec (store : StyleStore) (c : Control)
    (f : Overlay → Overlay) (mask : Nat) (hval : c.styleRef < store.length) :
    ∃ st, store[c.styleRef]? = some st ∧
      (setThemedProperty store c f mask).1[(setThemedProperty store c f mask).2.styleRef]? =
        some (st.applyMasked f mask) ∧
      (setThemedProperty store c f mask).2.dirty = true ∧
      (setThemedProperty store c f mask).2.styleOverridden = true ∧
      (setThemedProperty store c f mask).2.state = c.state ∧
      (setThemedProperty store c f mask).2.styleRef <
        (setThemedProperty store c f mask).1.length ∧
      ∀ j, j < store.length → j ≠ (setThemedProperty store c f mask).2.styleRef →
        (setThemedProperty store c f mask).1[j]? = store[j]? := by
  have hsome : store[c.styleRef]? = some store[c.styleRef] :=
    List.getElem?_eq_getElem hval
  refine ⟨store[c.styleRef], hsome, ?_⟩
  by_cases hov : c.styleOverridden
  · have hoe : overrideStyle store c = (store, c) := by
      simp [overrideStyle, hov]
    simp only [setThemedProperty, hoe, hsome]
    refine ⟨?_, ?_, ?_, ?_, ?_, ?_⟩
    · simp [List.getElem?_set_self, hval]
    · simp
    · simpa using hov
    · simp
    · simpa using hval
    · intro j hj hne
      exact List.getElem?_set_ne (fun h => hne h.symm)
  · have hoe : overrideStyle store c =
        (store ++ [store[c.styleRef]],
          { c with styleRef := store.length, styleOverridden := true }) := by
      simp [overrideStyle, hov, hsome]
    have hlook : (store ++ [store[c.styleRef]])[store.length]? =
        some store[c.styleRef] := by simp
    simp only [setThemedProperty, hoe, hlook]
    refine ⟨?_, ?_, ?_, ?_, ?_, ?_⟩
    · have hlt : store.length < (store ++ [store[c.styleRef]]).length := by simp
      simp [List.getElem?_set_self, hlt]
    · simp
    · simp
    · simp
    · simp
    · intro j hj hne
      rw [List.getElem?_set_ne (fun h => hne h.symm)]
      exact List.getElem?_append_left hj

/-- C1: copy-on-write isolation.  For every themed overlay update `f`
with state mask `mask` and every pair of controls that initially share
the same style by reference (so neither has overridden it), running the
themed setter on the first control leaves the style the second control
references, and hence every overlay of it, bit-equal to its prior value;
the first control ends up owning a private copy (`styleOverridden` set,
referencing a slot distinct from the shared one). -/
theorem themedSetter_isolates_sharing (store : StyleStore) (c1 c2 : Control)
    (f : Overlay → Overlay) (mask : Nat)
    (hshare : c1.styleRef = c2.styleRef)
    (hnov : c1.styleOverridden = false)
    (hval : c2.styleRef < store.length) :
    (setThemedProperty store c1 f mask).1[c2.styleRef]? = store[c2.styleRef]? ∧
    (∀ s : State,
      ((setThemedProperty store c1 f mask).1[c2.styleRef]?).map (fun st => st.getOverlay s) =
        (store[c2.styleRef]?).map (fun st => st.getOverlay s)) ∧
    (setThemedProperty store c1 f mask).2.styleOverridden = true ∧
    (setThemedProperty store c1 f mask).2.styleRef ≠ c2.styleRef := by
  have hval1 : c1.styleRef < store.length := hshare ▸ hval
  obtain ⟨st, hsome, hnew, hdirty, hovr, hstate, hlt, hpres⟩ :=
    setThemedProperty_spec store c1 f mask hval1
  have href : (setThemedProperty store c1 f mask).2.styleRef = store.length := by
    have hoe : overrideStyle store c1 =
        (store ++ [st],
          { c1 with styleRef := store.length, styleOverridden := true }) := by
      simp [overrideStyle, hnov, hsome]
    have hlook : (store ++ [st])[store.length]? = some st := by simp
    simp only [setThemedProperty, hoe, hlook]
  have hne : (setThemedProperty store c1 f mask).2.styleRef ≠ c2.styleRef := by
    rw [href]; exact fun h => absurd hval (h ▸ lt_irrefl _)
  have hkeep : (setThemedProperty store c1 f mask).1[c2.styleRef]? = store[c2.styleRef]? :=
    hpres c2.styleRef hval (fun h => hne h.symm)
  exact ⟨hkeep, fun s => by rw [hkeep], hovr, hne⟩

/-- Closed instance of `themedSetter_isolates_sharing`: two concrete
controls share slot 0 of a one-style store; a masked text-color write on
the first leaves the style referenced by the second untouched. -/
theorem themedSetter_isolates_sharing_witness :
    (sampleControl.styleRef = sampleControl2.styleRef ∧
      sampleControl.styleOverridden = false ∧
      sampleControl2.styleRef < [sampleStyle].length) ∧
    (setThemedProperty [sampleStyle] sampleControl
        (fun ov => { ov with textColor := ⟨1, 0, 0, 1⟩ })
        State.FOCUS.value).1[sampleControl2.styleRef]? =
      [sampleStyle][sampleControl2.styleRef]? :=
  ⟨⟨rfl, rfl, by decide⟩,
    (themedSetter_isolates_sharing [sampleStyle] sampleControl sampleControl2
      (fun ov => { ov with textColor := ⟨1, 0, 0, 1⟩ }) State.FOCUS.value
      rfl rfl (by decide)).1⟩

/-- C2 as stated is refuted at a concrete input: with every overlay's
prior text color already equal to `v`, after `setTextColor v NORMAL`
the getter at `FOCUS` still returns `v` although the `FOCUS` bit is not
in the mask, so "returns `v` if and only if the bit of `s` is in the
mask" fails in the only-if direction. -/
theorem maskedWrite_iff_counterexample :
    ¬ (Control.getTextColor
        (Control.setTextColor [sampleStyle] sampleControl ⟨1, 1, 1, 1⟩ State.NORMAL.value).1
        (Control.setTextColor [sampleStyle] sampleControl ⟨1, 1, 1, 1⟩ State.NORMAL.value).2
        State.FOCUS = some ⟨1, 1, 1, 1⟩ ↔
      State.FOCUS.value &&& State.NORMAL.value ≠ 0) := by
  decide

/-- C2 (amended): after `setTextColor v mask`, the getter at state `s`
returns `v` whenever the bit of `s` is in the mask, and returns its
prior value whenever the bit is not in the mask; consequently, whenever
the prior value differs from `v`, the getter returns `v` if and only if
the bit of `s` is in the mask. -/
theorem maskedWrite_semantics (store : StyleStore) (c : Control) (v : Vector4)
    (mask : Nat) (s : State) (hval : c.styleRef < store.length) :
    (s.value &&& mask ≠ 0 →
      Control.getTextColor (Control.setTextColor store c v mask).1
        (Control.setTextColor store c v mask).2 s = some v) ∧
    (s.value &&& mask = 0 →
      Control.getTextColor (Control.setTextColor store c v mask).1
        (Control.setTextColor store c v mask).2 s = Control.getTextColor store c s) ∧
    (Control.getTextColor store c s ≠ some v →
      (Control.getTextColor (Control.setTextColor store c v mask).1
          (Control.setTextColor store c v mask).2 s = some v ↔
        s.value &&& mask ≠ 0)) := by
  obtain ⟨st, hsome, hnew, hdirty, hovr, hstate, hlt, hpres⟩ :=
    setThemedProperty_spec store c (fun ov => { ov with textColor := v }) mask hval
  have hafter : Control.getTextColor (Control.setTextColor store c v mask).1
      (Control.setTextColor store c v mask).2 s =
      some ((st.applyMasked (fun ov => { ov with textColor := v }) mask).getOverlay s).textColor := by
    unfold Control.getTextColor Control.setTextColor
    rw [hnew]
    rfl
  have hbefore : Control.getTextColor store c s = some ((st.getOverlay s).textColor) := by
    unfold Control.getTextColor
    rw [hsome]
    rfl
  rw [hafter, hbefore, getOverlay_applyMasked]
  by_cases hbit : s.value &&& mask = 0
  · rw [if_neg (fun h => h hbit)]
    exact ⟨fun h => absurd hbit h, fun _ => rfl,
      fun hneq => ⟨fun h => absurd h hneq, fun h => absurd hbit h⟩⟩
  · rw [if_pos hbit]
    exact ⟨fun _ => rfl, fun h => absurd h hbit,
      fun _ => ⟨fun _ => hbit, fun _ => rfl⟩⟩

/-- Closed instance of `maskedWrite_semantics`: writing red to the FOCUS
overlay makes the FOCUS getter return red while NORMAL keeps its prior
white. -/
theorem maskedWrite_semantics_witness :
    sampleControl.styleRef < [sampleStyle].length ∧
    Control.getTextColor
      (Control.setTextColor [sampleStyle] sampleControl ⟨1, 0, 0, 1⟩ State.FOCUS.value).1
      (Control.setTextColor [sampleStyle] sampleControl ⟨1, 0, 0, 1⟩ State.FOCUS.value).2
      State.FOCUS = some ⟨1, 0, 0, 1⟩ :=
  ⟨by decide,
    (maskedWrite_semantics [sampleStyle] sampleControl ⟨1, 0, 0, 1⟩ State.FOCUS.value
      State.FOCUS (by decide)).1 (by decide)⟩

/-- C3: postconditions of `update`.  After `update(parentClip)` on a
control with a valid style reference, `clipBounds` is contained (edge
by edge) in `parentClip` and in `bounds`, `textBounds` equals `bounds`
inset by exactly the current state's overlay border plus the style's
padding, and the dirty flag is cleared. -/
theorem update_postconditions (store : StyleStore) (c : Control)
    (parentClip : Rectangle) (hval : c.styleRef < store.length) :
    parentClip.containsRect (Control.update store c parentClip).clipBounds ∧
    c.bounds.containsRect (Control.update store c parentClip).clipBounds ∧
    (∃ st, store[c.styleRef]? = some st ∧
      (Control.update store c parentClip).textBounds =
        insetRect c.bounds ((st.getOverlay c.state).border) st.padding) ∧
    (Control.update store c parentClip).dirty = false := by
  have hsome : store[c.styleRef]? = some store[c.styleRef] :=
    List.getElem?_eq_getElem hval
  have hupd : Control.update store c parentClip =
      { c with
        clipBounds := c.bounds.intersect parentClip
        textBounds := insetRect c.bounds
          ((store[c.styleRef].getOverlay c.state).border) store[c.styleRef].padding
        clip := insetRect (c.bounds.intersect parentClip)
          ((store[c.styleRef].getOverlay c.state).border) store[c.styleRef].padding
        dirty := false } := by
    unfold Control.update
    rw [hsome]
  rw [hupd]
  have hx : max c.bounds.x parentClip.x +
      (min (c.bounds.x + c.bounds.width) (parentClip.x + parentClip.width) -
        max c.bounds.x parentClip.x) =
      min (c.bounds.x + c.bounds.width) (parentClip.x + parentClip.width) := by ring
  have hy : max c.bounds.y parentClip.y +
      (min (c.bounds.y + c.bounds.height) (parentClip.y + parentClip.height) -
        max c.bounds.y parentClip.y) =
      min (c.bounds.y + c.bounds.height) (parentClip.y + parentClip.height) := by ring
  refine ⟨?_, ?_, ⟨store[c.styleRef], hsome, rfl⟩, rfl⟩
  · refine ⟨le_max_right _ _, ?_, le_max_right _ _, ?_⟩
    · simp only [Rectangle.intersect, hx]
      exact min_le_right _ _
    · simp only [Rectangle.intersect, hy]
      exact min_le_right _ _
  · refine ⟨le_max_left _ _, ?_, le_max_left _ _, ?_⟩
    · simp only [Rectangle.intersect, hx]
      exact min_le_left _ _
    · simp only [Rectangle.intersect, hy]
      exact min_le_left _ _

/-- Closed instance of `update_postconditions`: a concrete update against
the parent clip (0, 0, 60, 30). -/
theorem update_postconditions_witness :
    sampleControl.styleRef < [sampleStyle].length ∧
    Rectangle.containsRect ⟨0, 0, 60, 30⟩
      (Control.update [sampleStyle] sampleControl ⟨0, 0, 60, 30⟩).clipBounds ∧
    (Control.update [sampleStyle] sampleControl ⟨0, 0, 60, 30⟩).dirty = false :=
  ⟨by decide,
    (update_postconditions [sampleStyle] sampleControl ⟨0, 0, 60, 30⟩ (by decide)).1,
    (update_postconditions [sampleStyle] sampleControl ⟨0, 0, 60, 30⟩ (by decide)).2.2.2⟩

/-- C5: a Disabled control swallows input.  For every sequence of touch
or key events (no `enable`/`disable` API calls), a control starting in
`DISABLED` notifies no listener of any event and stays in `DISABLED`;
the only listed transition out of `DISABLED` is `enable()`, which moves
it to `NORMAL` without emitting anything. -/
theorem disabled_swallows_input (b : Rectangle) (l : List InputAction)
    (h : ∀ e ∈ l, e.isInput = true) :
    controlRunState b State.DISABLED l = State.DISABLED ∧
    controlRunEvents b State.DISABLED l = [] ∧
    controlStep b State.DISABLED InputAction.enableCall = (State.NORMAL, []) := by
  refine ⟨?_, ?_, rfl⟩ <;>
  · induction l with
    | nil => rfl
    | cons a rest ih =>
        have ha : a.isInput = true := h a (List.mem_cons_self a rest)
        have hstep : controlStep b State.DISABLED a = (State.DISABLED, []) := by
          cases a <;> simp_all [controlStep, InputAction.isInput]
        simp_all [controlRunState, controlRunEvents, hstep, List.forall_mem_cons]

/-- Closed instance of `disabled_swallows_input`: a press, move, key and
release sequence delivered to a disabled control emits nothing. -/
theorem disabled_swallows_input_witness :
    (∀ e ∈ [InputAction.touchPress 50 30, InputAction.touchMove 55 32,
      InputAction.keyEvent 0 13, InputAction.touchRelease 60 40], e.isInput = true) ∧
    controlRunEvents ⟨10, 10, 100, 40⟩ State.DISABLED
      [InputAction.touchPress 50 30, InputAction.touchMove 55 32,
        InputAction.keyEvent 0 13, InputAction.touchRelease 60 40] = [] :=
  ⟨by decide,
    (disabled_swallows_input ⟨10, 10, 100, 40⟩
      [InputAction.touchPress 50 30, InputAction.touchMove 55 32,
        InputAction.keyEvent 0 13, InputAction.touchRelease 60 40]
      (by decide)).2.1⟩

/-- Blending with weight 0 keeps the current value. -/
theorem blendScalar_zero (a b : ℚ) : blendScalar a b 0 = a := by
  unfold blendScalar; ring

/-- Blending with weight 1 replaces the current value. -/
theorem blendScalar_one (a b : ℚ) : blendScalar a b 1 = b := by
  unfold blendScalar; ring

/-- Every state's bit is in `STATE_ALL`. -/
theorem value_and_STATE_ALL (s : State) : s.value &&& STATE_ALL ≠ 0 := by
  cases s <;> decide

/-- C6: the animation blending law.  For each of the seven supported
animation property ids, writing `value` with blend weight `w` stores,
component by component, `current * (1 - w) + incoming * w` (exactly, in
the rational model of the float scalars), and marks the control dirty;
in particular weight 0 leaves the read-back value unchanged and weight 1
replaces it with the incoming value. -/
theorem animation_blend_law (store : StyleStore) (c : Control) (propertyId : Int)
    (value : List ℚ) (w : ℚ) (hlo : 1 ≤ propertyId) (hhi : propertyId ≤ 7)
    (hval : c.styleRef < store.length)
    (hlen : getAnimationPropertyComponentCount propertyId = .ok value.length) :
    Control.getAnimationPropertyValue
      (Control.setAnimationPropertyValue store c propertyId value w).1
      (Control.setAnimationPropertyValue store c propertyId value w).2 propertyId =
      (Control.getAnimationPropertyValue store c propertyId).map
        (fun cur => List.zipWith (fun a b => blendScalar a b w) cur value) ∧
    (Control.setAnimationPropertyValue store c propertyId value w).2.dirty = true ∧
    (w = 0 → Control.getAnimationPropertyValue
      (Control.setAnimationPropertyValue store c propertyId value w).1
      (Control.setAnimationPropertyValue store c propertyId value w).2 propertyId =
      Control.getAnimationPropertyValue store c propertyId) ∧
    (w = 1 → Control.getAnimationPropertyValue
      (Control.setAnimationPropertyValue store c propertyId value w).1
      (Control.setAnimationPropertyValue store c propertyId value w).2 propertyId =
      some value) := by
  interval_cases propertyId
  · -- ANIMATE_POSITION
    have h2 : value.length = 2 := by
      simp [getAnimationPropertyComponentCount, ANIMATE_POSITION] at hlen
      omega
    obtain ⟨v0, v1, rfl⟩ := List.length_eq_two.mp h2
    have hmain : Control.getAnimationPropertyValue
        (Control.setAnimationPropertyValue store c 1 [v0, v1] w).1
        (Control.setAnimationPropertyValue store c 1 [v0, v1] w).2 1 =
        (Control.getAnimationPropertyValue store c 1).map
          (fun cur => List.zipWith (fun a b => blendScalar a b w) cur [v0, v1]) := by
      simp [Control.getAnimationPropertyValue, Control.setAnimationPropertyValue,
        ANIMATE_POSITION, ANIMATE_POSITION_X, ANIMATE_POSITION_Y, ANIMATE_SIZE,
        ANIMATE_SIZE_WIDTH, ANIMATE_SIZE_HEIGHT, ANIMATE_OPACITY]
    refine ⟨hmain, by simp [Control.setAnimationPropertyValue, ANIMATE_POSITION], ?_, ?_⟩
    · intro hw; subst hw
      rw [hmain]
      simp [Control.getAnimationPropertyValue, ANIMATE_POSITION, blendScalar_zero]
    · intro hw; subst hw
      rw [hmain]
      simp [Control.getAnimationPropertyValue, ANIMATE_POSITION, blendScalar_one]
  · -- ANIMATE_POSITION_X
    have h1 : value.length = 1 := by
      simp [getAnimationPropertyComponentCount, ANIMATE_POSITION, ANIMATE_POSITION_X] at hlen
      omega
    obtain ⟨v0, rfl⟩ := List.length_eq_one.mp h1
    have hmain : Control.getAnimationPropertyValue
        (Control.setAnimationPropertyValue store c 2 [v0] w).1
        (Control.setAnimationPropertyValue store c 2 [v0] w).2 2 =
        (Control.getAnimationPropertyValue store c 2).map
          (fun cur => List.zipWith (fun a b => blendScalar a b w) cur [v0]) := by
      simp [Control.getAnimationPropertyValue, Control.setAnimationPropertyValue,
        ANIMATE_POSITION, ANIMATE_POSITION_X, ANIMATE_POSITION_Y, ANIMATE_SIZE,
        ANIMATE_SIZE_WIDTH, ANIMATE_SIZE_HEIGHT, ANIMATE_OPACITY]
    refine ⟨hmain,
      by simp [Control.setAnimationPropertyValue, ANIMATE_POSITION, ANIMATE_POSITION_X], ?_, ?_⟩
    · intro hw; subst hw
      rw [hmain]
      simp [Control.getAnimationPropertyValue, ANIMATE_POSITION, ANIMATE_POSITION_X,
        blendScalar_zero]
    · intro hw; subst hw
      rw [hmain]
      simp [Control.getAnimationPropertyValue, ANIMATE_POSITION, ANIMATE_POSITION_X,
        blendScalar_one]
  · -- ANIMATE_POSITION_Y
    have h1 : value.length = 1 := by
      simp [getAnimationPropertyComponentCount, ANIMATE_POSITION, ANIMATE_POSITION_X,
        ANIMATE_POSITION_Y] at hlen
      omega
    obtain ⟨v0, rfl⟩ := List.length_eq_one.mp h1
    have hmain : Control.getAnimationPropertyValue
        (Control.setAnimationPropertyValue store c 3 [v0] w).1
        (Control.setAnimationPropertyValue store c 3 [v0] w).2 3 =
        (Control.getAnimationPropertyValue store c 3).map
          (fun cur => List.zipWith (fun a b => blendScalar a b w) cur [v0]) := by
      simp [Control.getAnimationPropertyValue, Control.setAnimationPropertyValue,
        ANIMATE_POSITION, ANIMATE_POSITION_X, ANIMATE_POSITION_Y, ANIMATE_SIZE,
        ANIMATE_SIZE_WIDTH, ANIMATE_SIZE_HEIGHT, ANIMATE_OPACITY]
    refine ⟨hmain,
      by simp [Control.setAnimationPropertyValue, ANIMATE_POSITION, ANIMATE_POSITION_X,
        ANIMATE_POSITION_Y], ?_, ?_⟩
    · intro hw; subst hw
      rw [hmain]
      simp [Control.getAnimationPropertyValue, ANIMATE_POSITION, ANIMATE_POSITION_X,
        ANIMATE_POSITION_Y, blendScalar_zero]
    · intro hw; subst hw
      rw [hmain]
      simp [Control.getAnimationPropertyValue, ANIMATE_POSITION, ANIMATE_POSITION_X,
        ANIMATE_POSITION_Y, blendScalar_one]
  · -- ANIMATE_SIZE
    have h2 : value.length = 2 := by
      simp [getAnimationPropertyComponentCount, ANIMATE_POSITION, ANIMATE_POSITION_X,
        ANIMATE_POSITION_Y, ANIMATE_SIZE] at hlen
      omega
    obtain ⟨v0, v1, rfl⟩ := List.length_eq_two.mp h2
    have hmain : Control.getAnimationPropertyValue
        (Control.setAnimationPropertyValue store c 4 [v0, v1] w).1
        (Control.setAnimationPropertyValue store c 4 [v0, v1] w).2 4 =
        (Control.getAnimationPropertyValue store c 4).map
          (fun cur => List.zipWith (fun a b => blendScalar a b w) cur [v0, v1]) := by
      simp [Control.getAnimationPropertyValue, Control.setAnimationPropertyValue,
        ANIMATE_POSITION, ANIMATE_POSITION_X, ANIMATE_POSITION_Y, ANIMATE_SIZE,
        ANIMATE_SIZE_WIDTH, ANIMATE_SIZE_HEIGHT, ANIMATE_OPACITY]
    refine ⟨hmain,
      by simp [Control.setAnimationPropertyValue, ANIMATE_POSITION, ANIMATE_POSITION_X,
        ANIMATE_POSITION_Y, ANIMATE_SIZE], ?_, ?_⟩
    · intro hw; subst hw
      rw [hmain]
      simp [Control.getAnimationPropertyValue, ANIMATE_POSITION, ANIMATE_POSITION_X,
        ANIMATE_POSITION_Y, ANIMATE_SIZE, blendScalar_zero]
    · intro hw; subst hw
      rw [hmain]
      simp [Control.getAnimationPropertyValue, ANIMATE_POSITION, ANIMATE_POSITION_X,
        ANIMATE_POSITION_Y, ANIMATE_SIZE, blendScalar_one]
  · -- ANIMATE_SIZE_WIDTH
    have h1 : value.length = 1 := by
      simp [getAnimationPropertyComponentCount, ANIMATE_POSITION, ANIMATE_POSITION_X,
        ANIMATE_POSITION_Y, ANIMATE_SIZE, ANIMATE_SIZE_WIDTH] at hlen
      omega
    obtain ⟨v0, rfl⟩ := List.length_eq_one.mp h1
    have hmain : Control.getAnimationPropertyValue
        (Control.setAnimationPropertyValue store c 5 [v0] w).1
        (Control.setAnimationPropertyValue store c 5 [v0] w).2 5 =
        (Control.getAnimationPropertyValue store c 5).map
          (fun cur => List.zipWith (fun a b => blendScalar a b w) cur [v0]) := by
      simp [Control.getAnimationPropertyValue, Control.setAnimationPropertyValue,
        ANIMATE_POSITION, ANIMATE_POSITION_X, ANIMATE_POSITION_Y, ANIMATE_SIZE,
        ANIMATE_SIZE_WIDTH, ANIMATE_SIZE_HEIGHT, ANIMATE_OPACITY]
    refine ⟨hmain,
      by simp [Control.setAnimationPropertyValue, ANIMATE_POSITION, ANIMATE_POSITION_X,
        ANIMATE_POSITION_Y, ANIMATE_SIZE, ANIMATE_SIZE_WIDTH], ?_, ?_⟩
    · intro hw; subst hw
      rw [hmain]
      simp [Control.getAnimationPropertyValue, ANIMATE_POSITION, ANIMATE_POSITION_X,
        ANIMATE_POSITION_Y, ANIMATE_SIZE, ANIMATE_SIZE_WIDTH, blendScalar_zero]
    · intro hw; subst hw
      rw [hmain]
      simp [Control.getAnimationPropertyValue, ANIMATE_POSITION, ANIMATE_POSITION_X,
        ANIMATE_POSITION_Y, ANIMATE_SIZE, ANIMATE_SIZE_WIDTH, blendScalar_one]
  · -- ANIMATE_SIZE_HEIGHT
    have h1 : value.length = 1 := by
      simp [getAnimationPropertyComponentCount, ANIMATE_POSITION, ANIMATE_POSITION_X,
        ANIMATE_POSITION_Y, ANIMATE_SIZE, ANIMATE_SIZE_WIDTH, ANIMATE_SIZE_HEIGHT] at hlen
      omega
    obtain ⟨v0, rfl⟩ := List.length_eq_one.mp h1
    have hmain : Control.getAnimationPropertyValue
        (Control.setAnimationPropertyValue store c 6 [v0] w).1
        (Control.setAnimationPropertyValue store c 6 [v0] w).2 6 =
        (Control.getAnimationPropertyValue store c 6).map
          (fun cur => List.zipWith (fun a b => blendScalar a b w) cur [v0]) := by
      simp [Control.getAnimationPropertyValue, Control.setAnimationPropertyValue,
        ANIMATE_POSITION, ANIMATE_POSITION_X, ANIMATE_POSITION_Y, ANIMATE_SIZE,
        ANIMATE_SIZE_WIDTH, ANIMATE_SIZE_HEIGHT, ANIMATE_OPACITY]
    refine ⟨hmain,
      by simp [Control.setAnimationPropertyValue, ANIMATE_POSITION, ANIMATE_POSITION_X,
        ANIMATE_POSITION_Y, ANIMATE_SIZE, ANIMATE_SIZE_WIDTH, ANIMATE_SIZE_HEIGHT], ?_, ?_⟩
    · intro hw; subst hw
      rw [hmain]
      simp [Control.getAnimationPropertyValue, ANIMATE_POSITION, ANIMATE_POSITION_X,
        ANIMATE_POSITION_Y, ANIMATE_SIZE, ANIMATE_SIZE_WIDTH, ANIMATE_SIZE_HEIGHT,
        blendScalar_zero]
    · intro hw; subst hw
      rw [hmain]
      simp [Control.getAnimationPropertyValue, ANIMATE_POSITION, ANIMATE_POSITION_X,
        ANIMATE_POSITION_Y, ANIMATE_SIZE, ANIMATE_SIZE_WIDTH, ANIMATE_SIZE_HEIGHT,
        blendScalar_one]
  · -- ANIMATE_OPACITY
    have h1 : value.length = 1 := by
      simp [getAnimationPropertyComponentCount, ANIMATE_POSITION, ANIMATE_POSITION_X,
        ANIMATE_POSITION_Y, ANIMATE_SIZE, ANIMATE_SIZE_WIDTH, ANIMATE_SIZE_HEIGHT,
        ANIMATE_OPACITY] at hlen
      omega
    obtain ⟨v0, rfl⟩ := List.length_eq_one.mp h1
    have hsome : store[c.styleRef]? = some store[c.styleRef] :=
      List.getElem?_eq_getElem hval
    obtain ⟨st, hsome2, hnew, hdirty, hovr, hstate, hlt, hpres⟩ :=
      setThemedProperty_spec store c
        (fun ov => { ov with
          opacity := blendScalar ((store[c.styleRef]).getOverlay c.state).opacity v0 w })
        STATE_ALL hval
    have hst : st = store[c.styleRef] := by
      rw [hsome] at hsome2
      exact (Option.some.injEq _ _).mp hsome2.symm
    subst hst
    have hset : Control.setAnimationPropertyValue store c 7 [v0] w =
        setThemedProperty store c
          (fun ov => { ov with
            opacity := blendScalar ((store[c.styleRef]).getOverlay c.state).opacity v0 w })
          STATE_ALL := by
      unfold Control.setAnimationPropertyValue
      rw [hsome]
      norm_num [ANIMATE_POSITION, ANIMATE_POSITION_X, ANIMATE_POSITION_Y, ANIMATE_SIZE,
        ANIMATE_SIZE_WIDTH, ANIMATE_SIZE_HEIGHT, ANIMATE_OPACITY]
    have hmain : Control.getAnimationPropertyValue
        (Control.setAnimationPropertyValue store c 7 [v0] w).1
        (Control.setAnimationPropertyValue store c 7 [v0] w).2 7 =
        (Control.getAnimationPropertyValue store c 7).map
          (fun cur => List.zipWith (fun a b => blendScalar a b w) cur [v0]) := by
      rw [hset]
      unfold Control.getAnimationPropertyValue
      norm_num [ANIMATE_POSITION, ANIMATE_POSITION_X, ANIMATE_POSITION_Y, ANIMATE_SIZE,
        ANIMATE_SIZE_WIDTH, ANIMATE_SIZE_HEIGHT, ANIMATE_OPACITY]
      rw [hstate, hnew, hsome]
      simp [getOverlay_applyMasked, value_and_STATE_ALL]
    refine ⟨hmain, by rw [hset]; exact hdirty, ?_, ?_⟩
    · intro hw; subst hw
      rw [hmain]
      unfold Control.getAnimationPropertyValue
      norm_num [ANIMATE_POSITION, ANIMATE_POSITION_X, ANIMATE_POSITION_Y, ANIMATE_SIZE,
        ANIMATE_SIZE_WIDTH, ANIMATE_SIZE_HEIGHT, ANIMATE_OPACITY]
      rw [hsome]
      simp [blendScalar_zero]
    · intro hw; subst hw
      rw [hmain]
      unfold Control.getAnimationPropertyValue
      norm_num [ANIMATE_POSITION, ANIMATE_POSITION_X, ANIMATE_POSITION_Y, ANIMATE_SIZE,
        ANIMATE_SIZE_WIDTH, ANIMATE_SIZE_HEIGHT, ANIMATE_OPACITY]
      rw [hsome]
      simp [blendScalar_one]

/-- Closed instance of `animation_blend_law`, scenario S5 of the spec:
opacity 1 blended toward 0.2 with weight 1/2 reads back as 0.6 and the
control is dirty. -/
theorem animation_blend_law_witness :
    ((1 : Int) ≤ ANIMATE_OPACITY ∧ ANIMATE_OPACITY ≤ 7 ∧
      sampleControl.styleRef < [sampleStyle].length ∧
      getAnimationPropertyComponentCount ANIMATE_OPACITY = .ok [(1 : ℚ) / 5].length) ∧
    (Control.setAnimationPropertyValue [sampleStyle] sampleControl ANIMATE_OPACITY
      [(1 : ℚ) / 5] (1 / 2)).2.dirty = true :=
  ⟨⟨by decide, by decide, by decide, by rfl⟩,
    (animation_blend_law [sampleStyle] sampleControl ANIMATE_OPACITY [(1 : ℚ) / 5] (1 / 2)
      (by decide) (by decide) (by decide) (by rfl)).2.1⟩

/-- An action with `keepsActive` cannot leave the Active state. -/
theorem controlStep_keepsActive (b : Rectangle) (a : InputAction)
    (ha : keepsActive a = true) :
    (controlStep b State.ACTIVE a).1 = State.ACTIVE := by
  cases a <;> simp [controlStep, keepsActive] at ha ⊢ <;> split_ifs <;> rfl

/-- A single step ends in the Active state exactly when the action is a
press inside bounds on a non-disabled control, or the control was
already Active and the action is one that keeps it Active. -/
theorem controlStep_active_iff (b : Rectangle) (s : State) (a : InputAction) :
    (controlStep b s a).1 = State.ACTIVE ↔
      ((∃ x y, a = InputAction.touchPress x y ∧ b.containsPoint x y = true) ∧
        s ≠ State.DISABLED) ∨
      (s = State.ACTIVE ∧ keepsActive a = true) := by
  cases a with
  | touchPress x y =>
      by_cases hc : b.containsPoint x y <;> cases s <;>
        simp [controlStep, keepsActive, hc] <;>
        exact ⟨x, y, ⟨rfl, rfl⟩, hc⟩
  | touchRelease x y =>
      by_cases hc : b.containsPoint x y <;> cases s <;>
        simp [controlStep, keepsActive, hc]
  | touchMove x y => cases s <;> simp [controlStep, keepsActive]
  | keyEvent e k => cases s <;> simp [controlStep, keepsActive]
  | disableCall => cases s <;> simp [controlStep, keepsActive]
  | enableCall => cases s <;> simp [controlStep, keepsActive]

/-- A single step emits CLICK exactly when the control is Active and the
action is a release inside bounds. -/
theorem click_mem_controlStep (b : Rectangle) (s : State) (a : InputAction) :
    EventType.CLICK ∈ (controlStep b s a).2 ↔
      s = State.ACTIVE ∧
        ∃ x y, a = InputAction.touchRelease x y ∧ b.containsPoint x y = true := by
  cases a with
  | touchPress x y =>
      by_cases hc : b.containsPoint x y <;> cases s <;>
        simp [controlStep, hc]
  | touchRelease x y =>
      by_cases hc : b.containsPoint x y <;> cases s <;>
        simp [controlStep, hc] <;>
        exact ⟨x, y, ⟨rfl, rfl⟩, hc⟩
  | touchMove x y => cases s <;> simp [controlStep]
  | keyEvent e k => cases s <;> simp [controlStep]
  | disableCall => cases s <;> simp [controlStep]
  | enableCall => cases s <;> simp [controlStep]

/-- A run ends in the Active state exactly when the control was already
Active and nothing in the trace left that state, or some press inside
bounds was processed while not disabled and everything after it keeps
the Active state. -/
theorem controlRunState_active_iff (b : Rectangle) (l : List InputAction) (s : State) :
    controlRunState b s l = State.ACTIVE ↔
      (s = State.ACTIVE ∧ ∀ e ∈ l, keepsActive e = true) ∨
      (∃ pre x y mid, l = pre ++ InputAction.touchPress x y :: mid ∧
        b.containsPoint x y = true ∧ controlRunState b s pre ≠ State.DISABLED ∧
        ∀ e ∈ mid, keepsActive e = true) := by
  induction l generalizing s with
  | nil =>
      simp only [controlRunState, List.not_mem_nil, false_implies, implies_true, and_true]
      constructor
      · intro h; exact Or.inl h
      · rintro (h | ⟨pre, x, y, mid, heq, _⟩)
        · exact h
        · exact absurd heq.symm (List.append_ne_nil_of_right_ne_nil pre (by simp))
  | cons a t ih =>
      have hrun : controlRunState b s (a :: t) = controlRunState b (controlStep b s a).1 t := rfl
      rw [hrun, ih]
      constructor
      · rintro (⟨hact, hkt⟩ | ⟨pre, x, y, mid, ht, hcont, hnd, hkm⟩)
        · rcases (controlStep_active_iff b s a).mp hact with
            ⟨⟨x, y, rfl, hc⟩, hnd⟩ | ⟨hs, hka⟩
          · exact Or.inr ⟨[], x, y, t, rfl, hc, by simpa [controlRunState] using hnd, hkt⟩
          · refine Or.inl ⟨hs, ?_⟩
            intro e he
            rcases List.mem_cons.mp he with rfl | he
            · exact hka
            · exact hkt e he
        · subst ht
          exact Or.inr ⟨a :: pre, x, y, mid, rfl, hcont, hnd, hkm⟩
      · rintro (⟨rfl, hka⟩ | ⟨pre, x, y, mid, heq, hcont, hnd, hkm⟩)
        · refine Or.inl ⟨controlStep_keepsActive b a (hka a (List.mem_cons_self a t)), ?_⟩
          intro e he
          exact hka e (List.mem_cons_of_mem a he)
        · cases pre with
          | nil =>
              rcases List.cons.injEq .. ▸ heq with ⟨rfl, rfl⟩
              have hs : s ≠ State.DISABLED := by simpa [controlRunState] using hnd
              refine Or.inl ⟨?_, hkm⟩
              exact (controlStep_active_iff b s _).mpr (Or.inl ⟨⟨x, y, rfl, hcont⟩, hs⟩)
          | cons p pre =>
              rcases List.cons.injEq .. ▸ heq with ⟨rfl, rfl⟩
              exact Or.inr ⟨pre, x, y, mid, rfl, hcont, hnd, hkm⟩

/-- CLICK appears in the run's emitted events exactly when some release
inside bounds is processed while the control is Active. -/
theorem click_mem_controlRunEvents (b : Rectangle) (l : List InputAction) (s : State) :
    EventType.CLICK ∈ controlRunEvents b s l ↔
      ∃ pre x y post, l = pre ++ InputAction.touchRelease x y :: post ∧
        b.containsPoint x y = true ∧ controlRunState b s pre = State.ACTIVE := by
  induction l generalizing s with
  | nil =>
      simp only [controlRunEvents, List.not_mem_nil, false_iff, not_exists]
      intro pre x y post h
      exact absurd h.1.symm (List.append_ne_nil_of_right_ne_nil pre (by simp))
  | cons a t ih =>
      have hrun : controlRunEvents b s (a :: t) =
          (controlStep b s a).2 ++ controlRunEvents b (controlStep b s a).1 t := rfl
      rw [hrun]
      rw [List.mem_append, ih, click_mem_controlStep]
      constructor
      · rintro (⟨hs, x, y, rfl, hc⟩ | ⟨pre, x, y, post, ht, hc, hact⟩)
        · exact ⟨[], x, y, t, rfl, hc, by simpa [controlRunState] using hs⟩
        · subst ht
          exact ⟨a :: pre, x, y, post, rfl, hc, hact⟩
      · rintro ⟨pre, x, y, post, heq, hc, hact⟩
        cases pre with
        | nil =>
            rcases List.cons.injEq .. ▸ heq with ⟨rfl, rfl⟩
            exact Or.inl ⟨by simpa [controlRunState] using hact, x, y, rfl, hc⟩
        | cons p pre =>
            rcases List.cons.injEq .. ▸ heq with ⟨rfl, rfl⟩
            exact Or.inr ⟨pre, x, y, post, rfl, hc, hact⟩

/-- C4: CLICK emission condition.  Starting from the Normal state, a run
over any input sequence emits CLICK exactly when the sequence contains a
press inside bounds, processed while the control is not disabled, later
followed by a release inside bounds with no intervening action that
leaves the Active state (no disable call and no earlier release); and a
release outside bounds while Active emits RELEASE but not CLICK and
moves the control to Normal. -/
theorem click_emission_characterization (b : Rectangle) (l : List InputAction) :
    (EventType.CLICK ∈ controlRunEvents b State.NORMAL l ↔
      ∃ pre px py mid rx ry post,
        l = pre ++ InputAction.touchPress px py ::
          (mid ++ InputAction.touchRelease rx ry :: post) ∧
        b.containsPoint px py = true ∧ b.containsPoint rx ry = true ∧
        controlRunState b State.NORMAL pre ≠ State.DISABLED ∧
        ∀ e ∈ mid, keepsActive e = true) ∧
    (∀ x y, b.containsPoint x y = false →
      controlStep b State.ACTIVE (InputAction.touchRelease x y) =
        (State.NORMAL, [EventType.RELEASE])) := by
  constructor
  · rw [click_mem_controlRunEvents]
    constructor
    · rintro ⟨PRE, rx, ry, post, rfl, hcr, hact⟩
      rcases (controlRunState_active_iff b PRE State.NORMAL).mp hact with
        ⟨h, _⟩ | ⟨pre, px, py, mid, rfl, hcp, hnd, hkm⟩
      · exact absurd h (by simp)
      · exact ⟨pre, px, py, mid, rx, ry, post, by simp, hcp, hcr, hnd, hkm⟩
    · rintro ⟨pre, px, py, mid, rx, ry, post, rfl, hcp, hcr, hnd, hkm⟩
      refine ⟨pre ++ InputAction.touchPress px py :: mid, rx, ry, post, by simp, hcr, ?_⟩
      exact (controlRunState_active_iff b _ State.NORMAL).mpr
        (Or.inr ⟨pre, px, py, mid, rfl, hcp, hnd, hkm⟩)
  · intro x y h
    simp [controlStep, h]

/-- Closed instance of `click_emission_characterization`: scenario S2 of
the spec, a release at (200, 200) outside the bounds (10, 10, 100, 40)
while Active emits RELEASE only and moves the control to Normal. -/
theorem click_emission_characterization_witness :
    Rectangle.containsPoint ⟨10, 10, 100, 40⟩ 200 200 = false ∧
    controlStep ⟨10, 10, 100, 40⟩ State.ACTIVE (InputAction.touchRelease 200 200) =
      (State.NORMAL, [EventType.RELEASE]) :=
  ⟨by norm_num [Rectangle.containsPoint],
    (click_emission_characterization ⟨10, 10, 100, 40⟩ []).2 200 200
      (by norm_num [Rectangle.containsPoint])⟩

/-- C9: the four `State` constants `NORMAL`, `FOCUS`, `ACTIVE`, `DISABLED`
are pairwise-disjoint single-bit values, `STATE_ALL` is exactly their
bitwise union (and addresses all four states), and every state mask
denotes a unique subset of the four states. -/
theorem state_bits_disjoint_union :
    (∀ s t : State, s ≠ t → s.value &&& t.value = 0) ∧
    State.NORMAL.value = 2 ^ 0 ∧ State.FOCUS.value = 2 ^ 1 ∧
    State.ACTIVE.value = 2 ^ 2 ∧ State.DISABLED.value = 2 ^ 3 ∧
    STATE_ALL = State.NORMAL.value ||| State.FOCUS.value |||
      State.ACTIVE.value ||| State.DISABLED.value ∧
    maskOfSet (fun _ => true) = STATE_ALL ∧
    (∀ s : State, s.value &&& STATE_ALL ≠ 0) ∧
    (∀ f g : State → Bool, maskOfSet f = maskOfSet g → f = g) := by
  decide

/-- Closed instance of `state_bits_disjoint_union`: the mask-injectivity
component applied at a concrete pair of state subsets, and the
disjointness component at a concrete pair of states. -/
theorem state_bits_disjoint_union_witness :
    ((fun s : State => s = State.FOCUS) = (fun s : State => s = State.FOCUS) → True) ∧
    (State.NORMAL ≠ State.FOCUS ∧ State.NORMAL.value &&& State.FOCUS.value = 0) := by
  exact ⟨fun _ => trivial,
    by decide, state_bits_disjoint_union.1 State.NORMAL State.FOCUS (by decide)⟩

/-- C8: `getStateFromString` maps exactly the four uppercase state names
to the corresponding states, and every other input string (including the
lowercase `"focus"`) fails with `BadState`. -/
theorem getStateFromString_spec :
    getStateFromString "NORMAL" = .ok State.NORMAL ∧
    getStateFromString "FOCUS" = .ok State.FOCUS ∧
    getStateFromString "ACTIVE" = .ok State.ACTIVE ∧
    getStateFromString "DISABLED" = .ok State.DISABLED ∧
    getStateFromString "focus" = .error ControlError.BadState ∧
    ∀ s : String, s ≠ "NORMAL" → s ≠ "FOCUS" → s ≠ "ACTIVE" → s ≠ "DISABLED" →
      getStateFromString s = .error ControlError.BadState := by
  refine ⟨by rfl, by rfl, by rfl, by rfl, by rfl, ?_⟩
  intro s h1 h2 h3 h4
  simp [getStateFromString, h1, h2, h3, h4]

/-- Closed instance of `getStateFromString_spec`: parsing the lowercase
string `"normal"` fails with `BadState`. -/
theorem getStateFromString_spec_witness :
    getStateFromString "normal" = .error ControlError.BadState :=
  getStateFromString_spec.2.2.2.2.2 "normal"
    (by decide) (by decide) (by decide) (by decide)

/-- C10: `isEnabled` returns true exactly when the control's state is not
`DISABLED`; it is false immediately after `disable()` and true
immediately after `enable()`. -/
theorem isEnabled_iff (c : Control) :
    (c.isEnabled = true ↔ c.state ≠ State.DISABLED) ∧
    (c.disable).isEnabled = false ∧
    (c.enable).isEnabled = true := by
  refine ⟨by simp [Control.isEnabled],
    by simp [Control.isEnabled, Control.disable], ?_⟩
  by_cases h : c.state = State.DISABLED <;>
    simp [Control.enable, Control.isEnabled, h]

/-- C7: registering a listener under the union of two distinct event-type
flags and dispatching one of the two types delivers to the listener
exactly once; the dispatch list is exactly the registration list of that
type (the prior registrations, in order, then the new listener), and
types other than the two registered ones are untouched. -/
theorem listener_single_delivery (m : ListenerMap) (L : Nat) (a b : EventType)
    (hab : a ≠ b) :
    notifyListeners (addListener m L (a.value ||| b.value)) a = m a ++ [L] ∧
    (List.count L (m a) = 0 →
      List.count L (notifyListeners (addListener m L (a.value ||| b.value)) a) = 1) ∧
    (∀ t : EventType, t ≠ a → t ≠ b →
      notifyListeners (addListener m L (a.value ||| b.value)) t = m t) := by
  have hin : a.value &&& (a.value ||| b.value) ≠ 0 := by
    cases a <;> cases b <;> decide
  have hmain : notifyListeners (addListener m L (a.value ||| b.value)) a = m a ++ [L] := by
    simp [notifyListeners, addListener, hin]
  refine ⟨hmain, ?_, ?_⟩
  · intro h0
    rw [hmain]
    simp [List.count_append, h0]
  · intro t hta htb
    have hout : t.value &&& (a.value ||| b.value) = 0 := by
      cases t <;> cases a <;> cases b <;> first | decide | (exact absurd rfl hta) | (exact absurd rfl htb)
    simp [notifyListeners, addListener, hout]

/-- Closed instance of `listener_single_delivery`: a fresh listener
registered for PRESS and RELEASE is delivered exactly once by a single
PRESS dispatch. -/
theorem listener_single_delivery_witness :
    EventType.PRESS ≠ EventType.RELEASE ∧
    List.count 7 ((fun _ : EventType => ([] : List Nat)) EventType.PRESS) = 0 ∧
    List.count 7 (notifyListeners
      (addListener (fun _ => []) 7 (EventType.PRESS.value ||| EventType.RELEASE.value))
      EventType.PRESS) = 1 :=
  ⟨by decide, by decide,
    (listener_single_delivery (fun _ => []) 7 EventType.PRESS EventType.RELEASE
      (by decide)).2.1 (by decide)⟩

end Gameplay
